import Mathlib

/-!
Verification of the weighted-overlay raster aggregation and its orchestration
in the `pem` package (`src/pem/project.py` and `src/pem/conflict.py`).

The embedding models:
* IEEE-style float values (`FV`): finite rationals plus `nan` and signed
  infinities, with the absorbing-NaN arithmetic that `numpy` float32 arrays
  exhibit.  Float rounding is abstracted: finite values are exact rationals.
* numpy 2-D arrays (`NpArr`) as a flat row-major cell list plus a shape.
* rasters as read from disk (`Raster`): raw cell data (the no-data sentinel
  appears as an ordinary number, exactly as `gdal` `ReadAsArray` returns it)
  plus the spatial metadata collected by `util_read_raster`.
* the aggregation `_setup_users_algebra` of `project.py`, the weighted-sum
  loop of `get_conflict_index` in `conflict.py`, the normalization routine
  `util_normalize_rasters` (textually identical to `conflict.py`'s
  `_util_normalize_rasters`), and the fail-fast input checks of
  `_get_project_vars` / `setup_users` / `get_conflict_index`.
-/

-- ==========================================================================
-- Float value model
-- ==========================================================================

/-- A float32 cell value: NaN, plus/minus infinity, or a finite value
(modelled as an exact rational; rounding is abstracted). -/
inductive FV where
  | nan : FV
  | pinf : FV
  | ninf : FV
  | fin : ℚ → FV
deriving DecidableEq, Repr

/-- IEEE addition on the value model: NaN is absorbing, opposite infinities
give NaN, an infinity absorbs finite addends. -/
def FV.add : FV → FV → FV
  | .nan, _ => .nan
  | _, .nan => .nan
  | .pinf, .ninf => .nan
  | .ninf, .pinf => .nan
  | .pinf, _ => .pinf
  | _, .pinf => .pinf
  | .ninf, _ => .ninf
  | _, .ninf => .ninf
  | .fin a, .fin b => .fin (a + b)

/-- IEEE multiplication by a finite scalar: NaN is absorbing,
`inf * 0 = NaN`, otherwise infinities keep or flip sign. -/
def FV.smul : FV → ℚ → FV
  | .nan, _ => .nan
  | .pinf, w => if 0 < w then .pinf else if w < 0 then .ninf else .nan
  | .ninf, w => if 0 < w then .ninf else if w < 0 then .pinf else .nan
  | .fin a, w => .fin (a * w)

/-- IEEE division by a finite scalar.  Division of a nonzero finite value by
zero gives a signed infinity, `0/0 = NaN`, NaN is absorbing. -/
def FV.divs : FV → ℚ → FV
  | .nan, _ => .nan
  | .pinf, t => if 0 < t then .pinf else if t < 0 then .ninf else .pinf
  | .ninf, t => if 0 < t then .ninf else if t < 0 then .pinf else .ninf
  | .fin a, t =>
      if t = 0 then
        if a = 0 then .nan else if 0 < a then .pinf else .ninf
      else .fin (a / t)

/-- Largest finite float32 value, `(2 - 2^-23) * 2^127`; `numpy.nan_to_num`
maps `+inf` to it by default on a float32 array. -/
def FLOAT32_MAX : ℚ := 340282346638528859811704183484516925440

/-- Model of `numpy.nan_to_num(x, nan = nodata)` on one cell: NaN becomes the no-data
sentinel, infinities become the largest-magnitude finite float32 values,
finite cells are unchanged. -/
def FV.nanToNum : FV → ℚ → ℚ
  | .nan, nodata => nodata
  | .pinf, _ => FLOAT32_MAX
  | .ninf, _ => -FLOAT32_MAX
  | .fin a, _ => a

theorem FV.add_comm (a b : FV) : FV.add a b = FV.add b a := by
  cases a <;> cases b <;> simp [FV.add] <;> ring

theorem FV.add_assoc (a b c : FV) :
    FV.add (FV.add a b) c = FV.add a (FV.add b c) := by
  cases a <;> cases b <;> cases c <;> simp [FV.add] <;> ring

theorem FV.add_right_comm (a b c : FV) :
    FV.add (FV.add a b) c = FV.add (FV.add a c) b := by
  rw [FV.add_assoc, FV.add_assoc, FV.add_comm b c]

theorem FV.add_nan (a : FV) : FV.add a .nan = .nan := by
  cases a <;> simp [FV.add]

theorem FV.nan_add (a : FV) : FV.add .nan a = .nan := by
  cases a <;> rfl

theorem FV.smul_nan (w : ℚ) : FV.smul .nan w = .nan := rfl

theorem FV.add_fin (a b : ℚ) : FV.add (.fin a) (.fin b) = .fin (a + b) := rfl

theorem FV.smul_fin (a w : ℚ) : FV.smul (.fin a) w = .fin (a * w) := rfl

theorem FV.divs_nan (t : ℚ) : FV.divs .nan t = .nan := rfl

theorem FV.divs_fin (a t : ℚ) (ht : t ≠ 0) : FV.divs (.fin a) t = .fin (a / t) := by
  simp [FV.divs, ht]

-- ==========================================================================
-- numpy arrays, rasters, raster I/O metadata
-- ==========================================================================

/-- A numpy 2-D float32 array: shape plus row-major flattened cells. -/
structure NpArr where
  rows : Nat
  cols : Nat
  cells : List FV
deriving DecidableEq, Repr

/-- Spatial metadata collected by `util_read_raster`. -/
structure Metadata where
  raster_x_size : Nat
  raster_y_size : Nat
  raster_projection : String
  raster_geotransform : List ℚ
deriving DecidableEq, Repr

/-- A raster file as `util_read_raster` returns it: the raw band data (the
no-data sentinel appears as an ordinary number) and the metadata dict. -/
structure Raster where
  data : List ℚ
  rows : Nat
  cols : Nat
  metadata : Metadata
deriving DecidableEq, Repr

/-- Model of `np.zeros_like(a)`. -/
def npZerosLike (a : NpArr) : NpArr :=
  { a with cells := a.cells.map (fun _ => FV.fin 0) }

/-- Cellwise array addition (`a + b`); the arrays are used at equal shapes. -/
def npAdd (a b : NpArr) : NpArr :=
  { rows := a.rows, cols := a.cols, cells := List.zipWith FV.add a.cells b.cells }

/-- Array-times-scalar (`a * w`). -/
def npSMul (a : NpArr) (w : ℚ) : NpArr :=
  { a with cells := a.cells.map (fun x => FV.smul x w) }

/-- Array-divided-by-scalar (`a / t`). -/
def npDivS (a : NpArr) (t : ℚ) : NpArr :=
  { a with cells := a.cells.map (fun x => FV.divs x t) }

/-- Model of `np.nan_to_num(a, nan = nodata)`: the resulting array is all-finite. -/
def npNanToNum (a : NpArr) (nodata : ℚ) : NpArr :=
  { a with cells := a.cells.map (fun x => FV.fin (FV.nanToNum x nodata)) }

/-- One raw cell after `data[data == in_nodata] = np.nan`. -/
def maskCell (nodata : ℚ) (v : ℚ) : FV :=
  if v = nodata then FV.nan else FV.fin v

/-- Steps 2-3 of `_setup_users_algebra`: read band data as float32 and cast
cells equal to the incoming no-data value to NaN. -/
def maskData (nodata : ℚ) (r : Raster) : NpArr :=
  { rows := r.rows, cols := r.cols, cells := r.data.map (maskCell nodata) }

/-- The raster file produced by `util_write_raster` /
`conflict._util_write_raster`: band size taken from the grid's shape,
projection and geotransform from the metadata dict, the no-data value set on
the band, and the grid written as the band data. -/
structure WrittenRaster where
  width : Nat
  height : Nat
  projection : String
  geotransform : List ℚ
  nodata : ℚ
  cells : List FV
deriving DecidableEq, Repr

/-- Embedding of `util_write_raster(grid_output, dc_metadata, file_output, nodata_value)`
(identical in `project.py` and `conflict.py`): the created GTiff takes
`grid_output.shape[1]` / `shape[0]` as its x/y size and the projection and
geotransform from `dc_metadata`. -/
def util_write_raster (grid_output : NpArr) (dc_metadata : Metadata)
    (nodata_value : ℚ) : WrittenRaster :=
  { width := grid_output.cols
    height := grid_output.rows
    projection := dc_metadata.raster_projection
    geotransform := dc_metadata.raster_geotransform
    nodata := nodata_value
    cells := grid_output.cells }

-- ==========================================================================
-- project._setup_users_algebra
-- ==========================================================================

/-- Python exceptions raised by the embedded functions. -/
inductive PErr where
  | valueError : String → PErr
  | typeError : String → PErr
  | fileNotFoundError : String → PErr
  | nameError : String → PErr
  | keyError : String → PErr
deriving DecidableEq, Repr

/-- Observable I/O events of `_setup_users_algebra`: reading the i-th input
raster, and writing the output raster. -/
inductive AlgEvent where
  | readRaster : Nat → AlgEvent
  | writeRaster : AlgEvent
deriving DecidableEq, Repr

/-- Loop body of `_setup_users_algebra` (steps 1-5): read the raster, cast to
float32, mask the no-data sentinel to NaN, multiply by the weight and add it
to the running total. -/
def algStep (nodata : ℚ) (acc : NpArr) (rw : Raster × ℚ) : NpArr :=
  npAdd acc (npSMul (maskData nodata rw.1) rw.2)

/-- The accumulation loop of `_setup_users_algebra` over (raster, weight)
pairs, starting from the `np.zeros_like` accumulator. -/
def algFold (nodata : ℚ) (pairs : List (Raster × ℚ)) (acc : NpArr) : NpArr :=
  pairs.foldl (algStep nodata) acc

/-- Embedding of `project._setup_users_algebra(ls_rasters, ls_weights, ..., in_nodata)`.
Raster paths are identified with their contents (`util_read_raster` is the
identity on this model).  Returns the python result (the written raster, or
the raised exception) together with the ordered trace of raster reads and
writes the call performed.  With both lists empty the accumulator stays
`None` and the division `None / total_weight` raises a `TypeError`. -/
def _setup_users_algebra (ls_rasters : List Raster) (ls_weights : List ℚ)
    (in_nodata : ℚ) : Except PErr WrittenRaster × List AlgEvent :=
  if ls_rasters.length ≠ ls_weights.length then
    (.error (.valueError "List of files and weights not the same size"), [])
  else
    match ls_rasters with
    | [] =>
        (.error (.typeError "unsupported operand type for /: NoneType and float"), [])
    | r0 :: _ =>
        let total_weight := ls_weights.sum
        let weighted_sum :=
          algFold in_nodata (ls_rasters.zip ls_weights)
            (npZerosLike (maskData in_nodata r0))
        let weighted_avg := npDivS weighted_sum total_weight
        let final_data := npNanToNum weighted_avg in_nodata
        (.ok (util_write_raster final_data r0.metadata in_nodata),
          (List.range ls_rasters.length).map AlgEvent.readRaster ++ [.writeRaster])

-- ==========================================================================
-- Cell-level lemmas about the aggregation loop
-- ==========================================================================

/-- Cell `p` of an array (row-major), with NaN as out-of-range default. -/
def cellAt (a : NpArr) (p : Nat) : FV :=
  a.cells.getD p FV.nan

theorem getD_map_lt {α β : Type} (f : α → β) (l : List α) (p : Nat)
    (h : p < l.length) (d : β) (d0 : α) :
    (l.map f).getD p d = f (l.getD p d0) := by
  rw [List.getD_eq_getElem?_getD, List.getD_eq_getElem?_getD, List.getElem?_map,
    List.getElem?_eq_getElem h]
  rfl

theorem algStep_cells_length (nd : ℚ) (acc : NpArr) (rw : Raster × ℚ)
    (hlen : rw.1.data.length = acc.cells.length) :
    (algStep nd acc rw).cells.length = acc.cells.length := by
  simp [algStep, npAdd, npSMul, maskData, hlen]

theorem algFold_cells_length (nd : ℚ) (pairs : List (Raster × ℚ)) (acc : NpArr)
    (h : ∀ rw ∈ pairs, rw.1.data.length = acc.cells.length) :
    (algFold nd pairs acc).cells.length = acc.cells.length := by
  induction pairs generalizing acc with
  | nil => rfl
  | cons rw tl ih =>
      have hstep := algStep_cells_length nd acc rw (h rw (by simp))
      have htl : ∀ rw2 ∈ tl, rw2.1.data.length = (algStep nd acc rw).cells.length := by
        intro rw2 h2
        rw [hstep]
        exact h rw2 (by simp [h2])
      calc (algFold nd (rw :: tl) acc).cells.length
          = (algFold nd tl (algStep nd acc rw)).cells.length := rfl
        _ = (algStep nd acc rw).cells.length := ih (algStep nd acc rw) htl
        _ = acc.cells.length := hstep

theorem algStep_cellAt (nd : ℚ) (acc : NpArr) (rw : Raster × ℚ) (p : Nat)
    (hlen : rw.1.data.length = acc.cells.length) (hp : p < acc.cells.length) :
    cellAt (algStep nd acc rw) p =
      FV.add (cellAt acc p) (FV.smul (maskCell nd (rw.1.data.getD p 0)) rw.2) := by
  have hp2 : p < rw.1.data.length := by omega
  have h1 : acc.cells[p]? = some acc.cells[p] := List.getElem?_eq_getElem hp
  have h2 : rw.1.data[p]? = some rw.1.data[p] := List.getElem?_eq_getElem hp2
  simp [cellAt, algStep, npAdd, npSMul, maskData, List.getD_eq_getElem?_getD,
    List.getElem?_zipWith, List.getElem?_map, h1, h2]

theorem algFold_cellAt (nd : ℚ) (pairs : List (Raster × ℚ)) (acc : NpArr) (p : Nat)
    (h : ∀ rw ∈ pairs, rw.1.data.length = acc.cells.length)
    (hp : p < acc.cells.length) :
    cellAt (algFold nd pairs acc) p =
      pairs.foldl
        (fun x rw => FV.add x (FV.smul (maskCell nd (rw.1.data.getD p 0)) rw.2))
        (cellAt acc p) := by
  induction pairs generalizing acc with
  | nil => rfl
  | cons rw tl ih =>
      have hstep := algStep_cells_length nd acc rw (h rw (by simp))
      have htl : ∀ rw2 ∈ tl, rw2.1.data.length = (algStep nd acc rw).cells.length := by
        intro rw2 h2
        rw [hstep]
        exact h rw2 (by simp [h2])
      calc cellAt (algFold nd (rw :: tl) acc) p
          = cellAt (algFold nd tl (algStep nd acc rw)) p := rfl
        _ = tl.foldl
              (fun x rw => FV.add x (FV.smul (maskCell nd (rw.1.data.getD p 0)) rw.2))
              (cellAt (algStep nd acc rw) p) := ih (algStep nd acc rw) htl (by omega)
        _ = _ := by
              rw [algStep_cellAt nd acc rw p (h rw (by simp)) hp, List.foldl_cons]

/-- The per-cell accumulation when no contributing raster holds the sentinel
at cell `p`: a plain rational dot product. -/
theorem fvAccum_fin (nd : ℚ) (p : Nat) (pairs : List (Raster × ℚ)) (q0 : ℚ)
    (h : ∀ rw ∈ pairs, rw.1.data.getD p 0 ≠ nd) :
    pairs.foldl
      (fun x rw => FV.add x (FV.smul (maskCell nd (rw.1.data.getD p 0)) rw.2))
      (FV.fin q0) =
    FV.fin (q0 + (pairs.map (fun rw => rw.1.data.getD p 0 * rw.2)).sum) := by
  induction pairs generalizing q0 with
  | nil => simp
  | cons rw tl ih =>
      have hrw := h rw (by simp)
      have hstep : FV.add (FV.fin q0) (FV.smul (maskCell nd (rw.1.data.getD p 0)) rw.2)
          = FV.fin (q0 + rw.1.data.getD p 0 * rw.2) := by
        rw [maskCell, if_neg hrw, FV.smul_fin, FV.add_fin]
      rw [List.foldl_cons, hstep, ih (q0 + rw.1.data.getD p 0 * rw.2)
        (fun rw2 h2 => h rw2 (by simp [h2]))]
      congr 1
      simp only [List.map_cons, List.sum_cons]
      ring

/-- Once the accumulator is NaN it stays NaN for the rest of the loop. -/
theorem fvAccum_from_nan (nd : ℚ) (p : Nat) (pairs : List (Raster × ℚ)) :
    pairs.foldl
      (fun x rw => FV.add x (FV.smul (maskCell nd (rw.1.data.getD p 0)) rw.2))
      FV.nan = FV.nan := by
  induction pairs with
  | nil => rfl
  | cons rw tl ih => rw [List.foldl_cons, FV.nan_add]; exact ih

/-- If any contributing raster holds the sentinel at cell `p`, the per-cell
accumulation ends in NaN whatever the starting value. -/
theorem fvAccum_nan (nd : ℚ) (p : Nat) (pairs : List (Raster × ℚ)) (x : FV)
    (h : ∃ rw ∈ pairs, rw.1.data.getD p 0 = nd) :
    pairs.foldl
      (fun x rw => FV.add x (FV.smul (maskCell nd (rw.1.data.getD p 0)) rw.2))
      x = FV.nan := by
  induction pairs generalizing x with
  | nil => simp at h
  | cons rw tl ih =>
      by_cases hrw : rw.1.data.getD p 0 = nd
      · have hstep : FV.add x (FV.smul (maskCell nd (rw.1.data.getD p 0)) rw.2)
            = FV.nan := by
          rw [maskCell, if_pos hrw, FV.smul_nan, FV.add_nan]
        rw [List.foldl_cons, hstep]
        exact fvAccum_from_nan nd p tl
      · obtain ⟨rw2, hmem, hval⟩ := h
        rcases List.mem_cons.mp hmem with heq | hmem2
        · exact absurd (heq ▸ hval) hrw
        · exact ih _ ⟨rw2, hmem2, hval⟩

/-- With matching, non-empty lists `_setup_users_algebra` succeeds and writes
exactly the nan-masked weighted average divided by the total weight, carrying
the first raster's metadata. -/
theorem _setup_users_algebra_ok (r0 : Raster) (rest : List Raster)
    (ws : List ℚ) (nd : ℚ) (hlen : (r0 :: rest).length = ws.length) :
    _setup_users_algebra (r0 :: rest) ws nd =
      (.ok (util_write_raster
        (npNanToNum
          (npDivS
            (algFold nd ((r0 :: rest).zip ws) (npZerosLike (maskData nd r0)))
            ws.sum) nd)
        r0.metadata nd),
      (List.range (r0 :: rest).length).map AlgEvent.readRaster ++ [.writeRaster]) := by
  simp [_setup_users_algebra, hlen]

/-- Cell `p` of the grid written by a successful `_setup_users_algebra` call:
the FV-level accumulation followed by the division and `nan_to_num`. -/
theorem algebra_cell_formula (r0 : Raster) (rest : List Raster) (ws : List ℚ)
    (nd : ℚ) (p : Nat)
    (hshape : ∀ r ∈ r0 :: rest, r.data.length = r0.data.length)
    (hp : p < r0.data.length) :
    (npNanToNum
      (npDivS (algFold nd ((r0 :: rest).zip ws) (npZerosLike (maskData nd r0)))
        ws.sum) nd).cells.getD p FV.nan =
    FV.fin (FV.nanToNum
      (FV.divs
        (((r0 :: rest).zip ws).foldl
          (fun x rw => FV.add x (FV.smul (maskCell nd (rw.1.data.getD p 0)) rw.2))
          (FV.fin 0))
        ws.sum) nd) := by
  have hacc : (npZerosLike (maskData nd r0)).cells.length = r0.data.length := by
    simp [npZerosLike, maskData]
  have hzip : ∀ rw ∈ (r0 :: rest).zip ws,
      rw.1.data.length = (npZerosLike (maskData nd r0)).cells.length := by
    intro rw hmem
    rw [hacc]
    exact hshape rw.1 (List.of_mem_zip hmem).1
  have hplen : p < (npZerosLike (maskData nd r0)).cells.length := by omega
  have hfoldlen : (algFold nd ((r0 :: rest).zip ws)
      (npZerosLike (maskData nd r0))).cells.length = r0.data.length := by
    rw [algFold_cells_length nd _ _ hzip, hacc]
  have hcell0 : cellAt (npZerosLike (maskData nd r0)) p = FV.fin 0 := by
    rw [cellAt]
    simp only [npZerosLike, maskData]
    rw [getD_map_lt _ _ p (by simpa using hp) FV.nan FV.nan]
  have hfold := algFold_cellAt nd ((r0 :: rest).zip ws)
    (npZerosLike (maskData nd r0)) p hzip hplen
  rw [hcell0] at hfold
  simp only [npNanToNum, npDivS]
  rw [getD_map_lt _ _ p (by simpa [hfoldlen] using hp) FV.nan FV.nan,
    getD_map_lt _ _ p (by simpa [hfoldlen] using hp) FV.nan FV.nan]
  rw [← cellAt, hfold]

/-- The written grid keeps the shape fields of the accumulator (the shape of
the first raster's data): the arrays are combined at equal shapes. -/
theorem algFold_shape (nd : ℚ) (pairs : List (Raster × ℚ)) (acc : NpArr) :
    (algFold nd pairs acc).rows = acc.rows ∧ (algFold nd pairs acc).cols = acc.cols := by
  induction pairs generalizing acc with
  | nil => exact ⟨rfl, rfl⟩
  | cons rw tl ih =>
      have h := ih (algStep nd acc rw)
      exact ⟨h.1, h.2⟩

/-- Length of the written cell list: the first raster's cell count. -/
theorem algebra_out_cells_length (r0 : Raster) (rest : List Raster)
    (ws : List ℚ) (nd : ℚ)
    (hshape : ∀ r ∈ r0 :: rest, r.data.length = r0.data.length) :
    (npNanToNum
      (npDivS (algFold nd ((r0 :: rest).zip ws) (npZerosLike (maskData nd r0)))
        ws.sum) nd).cells.length = r0.data.length := by
  have hacc : (npZerosLike (maskData nd r0)).cells.length = r0.data.length := by
    simp [npZerosLike, maskData]
  have hzip : ∀ rw ∈ (r0 :: rest).zip ws,
      rw.1.data.length = (npZerosLike (maskData nd r0)).cells.length := by
    intro rw hmem
    rw [hacc]
    exact hshape rw.1 (List.of_mem_zip hmem).1
  simp only [npNanToNum, npDivS, List.length_map]
  rw [algFold_cells_length nd _ _ hzip, hacc]

-- ==========================================================================
-- Claims C1, C2, C3, C4, C6, C8 about _setup_users_algebra
-- ==========================================================================

/-- Claim C1: for equally long, non-empty lists of same-shape rasters whose
weights have non-zero sum, at every cell where no input holds the no-data
sentinel the written output cell equals
`sum_i(layer_i[cell] * weight_i) / sum(weights)`. -/
theorem C1_algebra_weighted_mean (r0 : Raster) (rest : List Raster)
    (ws : List ℚ) (nd : ℚ) (p : Nat)
    (hlen : (r0 :: rest).length = ws.length)
    (hshape : ∀ r ∈ r0 :: rest, r.data.length = r0.data.length)
    (hw : ws.sum ≠ 0)
    (hp : p < r0.data.length)
    (hvalid : ∀ r ∈ r0 :: rest, r.data.getD p 0 ≠ nd) :
    Except.map (fun o => o.cells.getD p FV.nan)
        (_setup_users_algebra (r0 :: rest) ws nd).1 =
      Except.ok (FV.fin
        ((((r0 :: rest).zip ws).map
          (fun rw => rw.1.data.getD p 0 * rw.2)).sum / ws.sum)) := by
  rw [_setup_users_algebra_ok r0 rest ws nd hlen]
  show Except.ok ((util_write_raster _ r0.metadata nd).cells.getD p FV.nan) = _
  rw [util_write_raster, algebra_cell_formula r0 rest ws nd p hshape hp]
  have hzip : ∀ rw ∈ (r0 :: rest).zip ws, rw.1.data.getD p 0 ≠ nd := by
    intro rw hmem
    exact hvalid rw.1 (List.of_mem_zip hmem).1
  rw [fvAccum_fin nd p _ 0 hzip, FV.divs_fin _ _ hw]
  rw [FV.nanToNum, zero_add]

/-- Claim C2: with equal-length lists and non-zero total weight, every cell
that equals the no-data sentinel in at least one input raster is written as
the no-data sentinel, never as a partial average. -/
theorem C2_algebra_nodata_propagates (r0 : Raster) (rest : List Raster)
    (ws : List ℚ) (nd : ℚ) (p : Nat)
    (hlen : (r0 :: rest).length = ws.length)
    (hshape : ∀ r ∈ r0 :: rest, r.data.length = r0.data.length)
    (hw : ws.sum ≠ 0)
    (hp : p < r0.data.length)
    (hnod : ∃ r ∈ r0 :: rest, r.data.getD p 0 = nd) :
    Except.map (fun o => o.cells.getD p FV.nan)
        (_setup_users_algebra (r0 :: rest) ws nd).1 =
      Except.ok (FV.fin nd) := by
  rw [_setup_users_algebra_ok r0 rest ws nd hlen]
  show Except.ok ((util_write_raster _ r0.metadata nd).cells.getD p FV.nan) = _
  rw [util_write_raster, algebra_cell_formula r0 rest ws nd p hshape hp]
  obtain ⟨r, hr, hval⟩ := hnod
  obtain ⟨i, hi, rfl⟩ := List.mem_iff_getElem.mp hr
  have hizip : i < ((r0 :: rest).zip ws).length := by
    rw [List.length_zip, ← hlen]
    omega
  have hmem : ((r0 :: rest)[i], ws[i]) ∈ (r0 :: rest).zip ws := by
    have := @List.getElem_zip _ _ (r0 :: rest) ws i hizip
    rw [← this]
    exact List.getElem_mem hizip
  rw [fvAccum_nan nd p _ _ ⟨((r0 :: rest)[i], ws[i]), hmem, hval⟩,
    FV.divs_nan, FV.nanToNum]

/-- Claim C3: with lists of different lengths `_setup_users_algebra` raises
its `ValueError` immediately: the trace is empty, so no raster was read and
no output was written. -/
theorem C3_algebra_length_mismatch (ls : List Raster) (ws : List ℚ) (nd : ℚ)
    (hne : ls.length ≠ ws.length) :
    _setup_users_algebra ls ws nd =
      (.error (.valueError "List of files and weights not the same size"), []) := by
  simp [_setup_users_algebra, hne]

-- ==========================================================================
-- Concrete rasters (the spec's worked scenario and small probes)
-- ==========================================================================

/-- Metadata of the worked 2x2 scenario rasters. -/
def mdDemo : Metadata :=
  { raster_x_size := 2, raster_y_size := 2, raster_projection := "EPSG:5880",
    raster_geotransform := [0, 1, 0, 0, 0, -1] }

/-- Layer `A = [[10, -99999], [20, 30]]` of the spec's worked scenario. -/
def rasterA : Raster :=
  { data := [10, -99999, 20, 30], rows := 2, cols := 2, metadata := mdDemo }

/-- Layer `B = [[0, 5], [10, 30]]` of the spec's worked scenario. -/
def rasterB : Raster :=
  { data := [0, 5, 10, 30], rows := 2, cols := 2, metadata := mdDemo }

/-- Metadata of the 1x1 probe rasters. -/
def mdOne : Metadata :=
  { raster_x_size := 1, raster_y_size := 1, raster_projection := "EPSG:5641",
    raster_geotransform := [0, 1, 0, 0, 0, -1] }

/-- A 1x1 raster holding 1. -/
def rasterC : Raster := { data := [1], rows := 1, cols := 1, metadata := mdOne }

/-- A 1x1 raster holding 3. -/
def rasterD : Raster := { data := [3], rows := 1, cols := 1, metadata := mdOne }

/-- Claim C1 witness: the spec's worked scenario at cell 0:
`(10*1 + 0*3) / 4 = 5/2`. -/
theorem C1_algebra_weighted_mean_witness :
    Except.map (fun o => o.cells.getD 0 FV.nan)
        (_setup_users_algebra [rasterA, rasterB] [1, 3] (-99999)).1 =
      Except.ok (FV.fin (5 / 2)) := by
  rw [C1_algebra_weighted_mean rasterA [rasterB] [1, 3] (-99999) 0
    (by decide) (by decide) (by norm_num) (by decide) (by decide)]
  norm_num [rasterA, rasterB]

/-- Claim C2 witness: the spec's worked scenario at cell 1, where layer A
holds the sentinel: the output cell is the sentinel. -/
theorem C2_algebra_nodata_propagates_witness :
    Except.map (fun o => o.cells.getD 1 FV.nan)
        (_setup_users_algebra [rasterA, rasterB] [1, 3] (-99999)).1 =
      Except.ok (FV.fin (-99999)) :=
  C2_algebra_nodata_propagates rasterA [rasterB] [1, 3] (-99999) 1
    (by decide) (by decide) (by norm_num) (by decide) (by decide)

/-- Claim C3 witness: the spec's mismatched scenario
`layers=[A,B]`, `weights=[1]`. -/
theorem C3_algebra_length_mismatch_witness :
    _setup_users_algebra [rasterA, rasterB] [1] (-99999) =
      (.error (.valueError "List of files and weights not the same size"), []) :=
  C3_algebra_length_mismatch [rasterA, rasterB] [1] (-99999) (by decide)

/-- Claim C4 (code bug): with weights summing to zero the source performs no
guard: the call on 1x1 layers [1], [3] with weights [1, -1] succeeds and
writes a raster whose single cell is `nan_to_num(-2/0) = nan_to_num(-inf)`,
the most negative finite float32 — instead of failing fast with a
degenerate-weights error. -/
theorem C4_algebra_zero_weight_writes :
    _setup_users_algebra [rasterC, rasterD] [1, -1] (-99999) =
      (.ok { width := 1, height := 1, projection := "EPSG:5641",
             geotransform := [0, 1, 0, 0, 0, -1], nodata := -99999,
             cells := [FV.fin (-FLOAT32_MAX)] },
       [.readRaster 0, .readRaster 1, .writeRaster]) := by
  rw [_setup_users_algebra_ok rasterC [rasterD] [1, -1] (-99999) (by decide)]
  norm_num [util_write_raster, npNanToNum, npDivS, algFold, algStep, npAdd,
    npSMul, npZerosLike, maskData, maskCell, rasterC, rasterD, mdOne,
    FV.smul, FV.add, FV.divs, FV.nanToNum, List.range_succ]

/-- The per-cell accumulation step is right-commutative, so the FV-level fold
is invariant under permutations of the (raster, weight) pairs. -/
theorem fvAccum_perm (nd : ℚ) (p : Nat) (pairs pairs2 : List (Raster × ℚ))
    (hperm : pairs.Perm pairs2) (x : FV) :
    pairs.foldl
      (fun x rw => FV.add x (FV.smul (maskCell nd (rw.1.data.getD p 0)) rw.2)) x =
    pairs2.foldl
      (fun x rw => FV.add x (FV.smul (maskCell nd (rw.1.data.getD p 0)) rw.2)) x := by
  have rcomm : RightCommutative
      (fun (x : FV) (rw : Raster × ℚ) =>
        FV.add x (FV.smul (maskCell nd (rw.1.data.getD p 0)) rw.2)) :=
    ⟨fun b a1 a2 => FV.add_right_comm b _ _⟩
  exact @List.Perm.foldl_eq _ _ _ pairs pairs2 rcomm hperm x

/-- Claim C6: applying one permutation to both the layer list and the weight
list (stated as a permutation of the zipped (layer, weight) pairs) leaves
the written output grid unchanged at every cell; both runs succeed and the
grids have the same cell count. -/
theorem C6_algebra_perm_invariant (r0 r0' : Raster) (rest rest' : List Raster)
    (ws ws' : List ℚ) (nd : ℚ)
    (hlen : (r0 :: rest).length = ws.length)
    (hlen' : (r0' :: rest').length = ws'.length)
    (hperm : ((r0 :: rest).zip ws).Perm ((r0' :: rest').zip ws'))
    (hshape : ∀ r ∈ r0 :: rest, r.data.length = r0.data.length) :
    Except.map (fun o => o.cells.length) (_setup_users_algebra (r0 :: rest) ws nd).1 =
      Except.map (fun o => o.cells.length) (_setup_users_algebra (r0' :: rest') ws' nd).1 ∧
    ∀ p : Nat,
      Except.map (fun o => o.cells.getD p FV.nan) (_setup_users_algebra (r0 :: rest) ws nd).1 =
        Except.map (fun o => o.cells.getD p FV.nan) (_setup_users_algebra (r0' :: rest') ws' nd).1 := by
  have hws : ((r0 :: rest).zip ws).map Prod.snd = ws :=
    List.map_snd_zip _ _ (by omega)
  have hws' : ((r0' :: rest').zip ws').map Prod.snd = ws' :=
    List.map_snd_zip _ _ (by omega)
  have hsum : ws.sum = ws'.sum := by
    rw [← hws, ← hws']
    exact (hperm.map Prod.snd).sum_eq
  have hshape' : ∀ r ∈ r0' :: rest', r.data.length = r0.data.length := by
    intro r hr
    obtain ⟨i, hi, rfl⟩ := List.mem_iff_getElem.mp hr
    have hizip : i < ((r0' :: rest').zip ws').length := by
      rw [List.length_zip, ← hlen']
      omega
    have hmem : ((r0' :: rest')[i], ws'[i]) ∈ (r0' :: rest').zip ws' := by
      have := @List.getElem_zip _ _ (r0' :: rest') ws' i hizip
      rw [← this]
      exact List.getElem_mem hizip
    exact hshape _ (List.of_mem_zip (hperm.mem_iff.mpr hmem)).1
  have hr0' : r0'.data.length = r0.data.length := hshape' r0' (by simp)
  have hshape2 : ∀ r ∈ r0' :: rest', r.data.length = r0'.data.length := by
    intro r hr
    rw [hshape' r hr, hr0']
  refine ⟨?_, ?_⟩
  · rw [_setup_users_algebra_ok r0 rest ws nd hlen,
      _setup_users_algebra_ok r0' rest' ws' nd hlen']
    simp only [Except.map, util_write_raster]
    rw [algebra_out_cells_length r0 rest ws nd hshape,
      algebra_out_cells_length r0' rest' ws' nd hshape2, hr0']
  · intro p
    rw [_setup_users_algebra_ok r0 rest ws nd hlen,
      _setup_users_algebra_ok r0' rest' ws' nd hlen']
    simp only [Except.map, util_write_raster]
    by_cases hp : p < r0.data.length
    · rw [algebra_cell_formula r0 rest ws nd p hshape hp,
        algebra_cell_formula r0' rest' ws' nd p hshape2 (by omega),
        fvAccum_perm nd p _ _ hperm (FV.fin 0), hsum]
    · have h1 := algebra_out_cells_length r0 rest ws nd hshape
      have h2 := algebra_out_cells_length r0' rest' ws' nd hshape2
      rw [List.getD_eq_getElem?_getD, List.getD_eq_getElem?_getD,
        List.getElem?_eq_none (by omega), List.getElem?_eq_none (by omega)]

/-- Claim C6 witness: swapping the two (layer, weight) pairs of the worked
scenario leaves the grid unchanged. -/
theorem C6_algebra_perm_invariant_witness :
    (Except.map (fun o => o.cells.length)
        (_setup_users_algebra [rasterA, rasterB] [1, 3] (-99999)).1 =
      Except.map (fun o => o.cells.length)
        (_setup_users_algebra [rasterB, rasterA] [3, 1] (-99999)).1) ∧
    ∀ p : Nat,
      Except.map (fun o => o.cells.getD p FV.nan)
          (_setup_users_algebra [rasterA, rasterB] [1, 3] (-99999)).1 =
        Except.map (fun o => o.cells.getD p FV.nan)
          (_setup_users_algebra [rasterB, rasterA] [3, 1] (-99999)).1 :=
  C6_algebra_perm_invariant rasterA rasterB [rasterB] [rasterA] [1, 3] [3, 1]
    (-99999) (by decide) (by decide) (by decide) (by decide)

/-- Claim C8: a successful `_setup_users_algebra` run writes a raster whose
band size equals the (common) input shape and whose projection and
geotransform are those of the first input layer, whatever the metadata of
the later layers. -/
theorem C8_algebra_output_shape_metadata (r0 : Raster) (rest : List Raster)
    (ws : List ℚ) (nd : ℚ)
    (hlen : (r0 :: rest).length = ws.length)
    (hshape : ∀ r ∈ r0 :: rest, r.data.length = r0.data.length)
    (hgrid : ∀ r ∈ r0 :: rest, r.rows = r0.rows ∧ r.cols = r0.cols) :
    Except.map
        (fun o => (o.width, o.height, o.cells.length, o.projection, o.geotransform))
        (_setup_users_algebra (r0 :: rest) ws nd).1 =
      Except.ok (r0.cols, r0.rows, r0.data.length,
        r0.metadata.raster_projection, r0.metadata.raster_geotransform) := by
  rw [_setup_users_algebra_ok r0 rest ws nd hlen]
  have hshp := algFold_shape nd ((r0 :: rest).zip ws) (npZerosLike (maskData nd r0))
  have hcells := algebra_out_cells_length r0 rest ws nd hshape
  simp only [Except.map, util_write_raster, npNanToNum, npDivS] at hcells ⊢
  simp only [Except.ok.injEq, Prod.mk.injEq]
  exact ⟨hshp.2, hshp.1, hcells, trivial⟩

/-- Claim C8 witness at the worked scenario. -/
theorem C8_algebra_output_shape_metadata_witness :
    Except.map
        (fun o => (o.width, o.height, o.cells.length, o.projection, o.geotransform))
        (_setup_users_algebra [rasterA, rasterB] [1, 3] (-99999)).1 =
      Except.ok (2, 2, 4, "EPSG:5880", ([0, 1, 0, 0, 0, -1] : List ℚ)) :=
  C8_algebra_output_shape_metadata rasterA [rasterB] [1, 3] (-99999)
    (by decide) (by decide) (by decide)

-- ==========================================================================
-- conflict.get_conflict_index: the weighted-sum loop (claim C5)
-- ==========================================================================

/-- Raster data as `conflict.get_conflict_index` uses it: cast to float32
with NO masking of the no-data sentinel (the loop at conflict.py:195-213 has
no `data[data == nodata] = nan` step). -/
def rawData (r : Raster) : NpArr :=
  { rows := r.rows, cols := r.cols, cells := r.data.map FV.fin }

/-- Loop body of the `Sum all conflicts` loop of `get_conflict_index`:
`weighted_sum += data * w` on the unmasked data. -/
def conflictStep (acc : NpArr) (rw : Raster × ℚ) : NpArr :=
  npAdd acc (npSMul (rawData rw.1) rw.2)

/-- The weighted aggregation of the normalized pairwise-conflict rasters in
`conflict.get_conflict_index` (lines 191-222), with the weight already
looked up from the conflict matrix for each raster.  The accumulated grid is
written by `_util_write_raster` unchanged — there is no NaN masking and no
`nan_to_num` — with the band no-data value left at its default −99999.  An
empty raster list leaves `weighted_sum = None`, and
`_util_write_raster(None, ...)` fails on `grid_output.shape`. -/
def get_conflict_index_wsum (ls_conflicts_fz : List Raster) (ws : List ℚ) :
    Except PErr WrittenRaster :=
  match ls_conflicts_fz with
  | [] => .error (.typeError "NoneType object has no attribute shape")
  | r0 :: _ =>
      let weighted_sum :=
        (ls_conflicts_fz.zip ws).foldl conflictStep (npZerosLike (rawData r0))
      .ok (util_write_raster weighted_sum r0.metadata (-99999))

/-- A 1x1 normalized-conflict raster holding the no-data sentinel. -/
def conflictR1 : Raster :=
  { data := [-99999], rows := 1, cols := 1, metadata := mdOne }

/-- A 1x1 normalized-conflict raster holding the valid value 1/2. -/
def conflictR2 : Raster :=
  { data := [1/2], rows := 1, cols := 1, metadata := mdOne }

/-- Claim C5 (code bug): the weighted-sum loop of `get_conflict_index` does
NOT mask the −99999 sentinel before accumulating.  A cell that is the
sentinel in one contributing raster (weights 1 and 1) is written as
`-99999 * 1 + (1/2) * 1 = -199997/2`, not as the sentinel: the sentinel
entered the arithmetic as an ordinary number. -/
theorem C5_conflict_sentinel_contaminates :
    Except.map (fun o => o.cells)
        (get_conflict_index_wsum [conflictR1, conflictR2] [1, 1]) =
      Except.ok [FV.fin (-199997 / 2)] ∧
    ((-199997 : ℚ) / 2 ≠ -99999) := by
  constructor
  · show Except.ok _ = _
    rw [Except.ok.injEq]
    norm_num [util_write_raster, conflictStep, npAdd, npSMul, npZerosLike,
      rawData, conflictR1, conflictR2, FV.smul, FV.add]
  · norm_num

-- ==========================================================================
-- util_normalize_rasters (project.py; conflict._util_normalize_rasters is
-- textually identical)
-- ==========================================================================

/-- Model of `np.nanmax` over the raw band data (which holds no NaN in this model:
the sentinel is an ordinary number, exactly as `util_get_raster_stats`
computes `dc_stats["max"]` on the data returned by `util_read_raster`). -/
def listMax : List ℚ → ℚ
  | [] => 0
  | v :: tl => tl.foldl max v

/-- Modelled from the spec: the external QGIS algorithm
`native:fuzzifyrasterlinearmembership` invoked by `util_normalize_rasters`
is not part of this repository; per the spec (section 4.2) every cell value
`v` maps to `clamp((v - vmin) / (vmax - vmin), 0, 1)` and no-data cells stay
no-data. -/
def fuzzifyLinear (vmin vmax nodata : ℚ) (r : Raster) : Raster :=
  { r with data := r.data.map (fun v =>
      if v = nodata then nodata
      else max 0 (min 1 ((v - vmin) / (vmax - vmin)))) }

/-- One iteration of the `util_normalize_rasters` loop body.  The statistics
are computed first (`np.nanmax` raises a `ValueError` on an empty array).
Then, faithfully to the source: when `force_vmin` is not `None` the local
`vmin` is assigned; otherwise the buggy `else` branch assigns `vmax` (from
`dc_stats["min"]`, immediately overwritten) and `vmin` stays unbound, so the
later comparison `if vmin == vmax` raises an unbound-local `NameError`
before `processing.run` (the fuzzify step) is reached.  When `vmin` is
bound and `vmin == vmax`, `vmax` is bumped to `vmax + 1`. -/
def normalizeOne (force_vmin : Option ℚ) (nodata : ℚ) (r : Raster) :
    Except PErr Raster :=
  if r.data.isEmpty then
    .error (.valueError "zero-size array to reduction operation fmax")
  else
    let vmax0 := listMax r.data
    match force_vmin with
    | some v =>
        let vmax := if v = vmax0 then vmax0 + 1 else vmax0
        .ok (fuzzifyLinear v vmax nodata r)
    | none =>
        .error (.nameError "local variable vmin referenced before assignment")

/-- One step of the `util_normalize_rasters` loop on the (result, written
files) state: a raised exception propagates, otherwise the normalized
raster is appended to the written outputs. -/
def normStep (force_vmin : Option ℚ) (nodata : ℚ)
    (st : Except PErr Unit × List Raster) (r : Raster) :
    Except PErr Unit × List Raster :=
  match st with
  | (.error e, outs) => (.error e, outs)
  | (.ok _, outs) =>
      match normalizeOne force_vmin nodata r with
      | .ok r2 => (.ok (), outs ++ [r2])
      | .error e => (.error e, outs)

/-- Embedding of `util_normalize_rasters(ls_rasters, suffix, force_vmin)`: the loop over
the rasters, returning the python result together with the list of
normalized rasters already written when the call finishes (empty when the
first iteration raises). -/
def util_normalize_rasters (ls_rasters : List Raster) (force_vmin : Option ℚ)
    (nodata : ℚ) : Except PErr Unit × List Raster :=
  ls_rasters.foldl (normStep force_vmin nodata) (.ok (), [])

/-- When every raster normalizes, the loop returns them all in order. -/
theorem util_normalize_rasters_ok (ls : List Raster) (force_vmin : Option ℚ)
    (nodata : ℚ) (f : Raster → Raster)
    (h : ∀ r ∈ ls, normalizeOne force_vmin nodata r = .ok (f r)) :
    util_normalize_rasters ls force_vmin nodata = (.ok (), ls.map f) := by
  suffices hgen : ∀ (acc : List Raster),
      ls.foldl (normStep force_vmin nodata) (.ok (), acc) =
        (.ok (), acc ++ ls.map f) by
    simpa [util_normalize_rasters] using hgen []
  induction ls with
  | nil => intro acc; simp
  | cons r tl ih =>
      intro acc
      have hr := h r (by simp)
      have htl : ∀ r2 ∈ tl, normalizeOne force_vmin nodata r2 = .ok (f r2) :=
        fun r2 h2 => h r2 (by simp [h2])
      have hstep : normStep force_vmin nodata (.ok (), acc) r
          = (.ok (), acc ++ [f r]) := by
        simp [normStep, hr]
      simp only [List.foldl_cons, hstep]
      rw [ih htl (acc ++ [f r])]
      simp

/-- The successful branch of the loop body: with a bound `vmin`, the upper
bound is the observed maximum, bumped by one when it equals `vmin`. -/
def normOkFun (v nd : ℚ) (r : Raster) : Raster :=
  fuzzifyLinear v
    (if v = listMax r.data then listMax r.data + 1 else listMax r.data) nd r

theorem normalizeOne_some (v nd : ℚ) (r : Raster) (hne : r.data ≠ []) :
    normalizeOne (some v) nd r = .ok (normOkFun v nd r) := by
  simp [normalizeOne, List.isEmpty_iff, hne, normOkFun]

/-- A raised exception propagates unchanged through the rest of the loop. -/
theorem normStep_error (force_vmin : Option ℚ) (nd : ℚ) (e : PErr)
    (outs : List Raster) (tl : List Raster) :
    tl.foldl (normStep force_vmin nd) (.error e, outs) = (.error e, outs) := by
  induction tl with
  | nil => rfl
  | cons r tl2 ih => exact ih

/-- Claim C7: with a supplied (non-None) lower bound `v`, the whole
normalization runs without raising, and a raster whose observed maximum
equals `v` (so `vmin == vmax`) and whose valid cells are the constant `v`
is normalized — with the upper bound bumped to `vmax + 1` — to 0 at every
valid cell, the no-data cells staying no-data (no NaN/Inf). -/
theorem C7_normalize_constant_raster (ls : List Raster) (v nd : ℚ)
    (hne : ∀ r ∈ ls, r.data ≠ []) :
    util_normalize_rasters ls (some v) nd = (.ok (), ls.map (normOkFun v nd)) ∧
    ∀ r ∈ ls, listMax r.data = v → (∀ c ∈ r.data, c = nd ∨ c = v) →
      (normOkFun v nd r).data = r.data.map (fun c => if c = nd then nd else 0) := by
  constructor
  · exact util_normalize_rasters_ok ls (some v) nd (normOkFun v nd)
      (fun r hr => normalizeOne_some v nd r (hne r hr))
  · intro r _ hmax hconst
    rw [normOkFun, hmax, if_pos rfl, fuzzifyLinear]
    show List.map _ r.data = List.map _ r.data
    apply List.map_congr_left
    intro c hc
    by_cases hcnd : c = nd
    · simp [hcnd]
    · have hcv : c = v := (hconst c hc).resolve_left hcnd
      have hvnd : v ≠ nd := fun h => hcnd (hcv.trans h)
      rw [if_neg hcnd, hcv, if_neg hvnd]
      norm_num

/-- Constant-valued 1x3 raster: valid cells 0, one sentinel cell. -/
def rasterK : Raster :=
  { data := [0, -99999, 0], rows := 1, cols := 3, metadata := mdOne }

/-- Claim C7 witness: normalizing the constant raster `[0, −99999, 0]` with
`force_vmin = 0` does not raise and yields 0 at the valid cells, keeping the
sentinel. -/
theorem C7_normalize_constant_raster_witness :
    util_normalize_rasters [rasterK] (some 0) (-99999) =
      (.ok (), [rasterK].map (normOkFun 0 (-99999))) ∧
    (normOkFun 0 (-99999) rasterK).data = [0, -99999, 0] := by
  have h := C7_normalize_constant_raster [rasterK] 0 (-99999) (by decide)
  refine ⟨h.1, ?_⟩
  rw [h.2 rasterK (by simp) (by norm_num [rasterK, listMax]) (by decide)]
  norm_num [rasterK]

/-- Claim C10: calling `util_normalize_rasters` (equally,
`conflict._util_normalize_rasters`) on a non-empty raster list with
`force_vmin = None` raises the unbound-local `NameError` at `if vmin ==
vmax` during the first iteration — before any fuzzify output is produced —
because the `else` branch assigns `vmax` instead of `vmin`. -/
theorem C10_normalize_none_vmin_nameerror (r0 : Raster) (rest : List Raster)
    (nd : ℚ) (hne : r0.data ≠ []) :
    util_normalize_rasters (r0 :: rest) none nd =
      (.error (.nameError "local variable vmin referenced before assignment"),
        []) := by
  have h0 : normalizeOne none nd r0 =
      .error (.nameError "local variable vmin referenced before assignment") := by
    simp [normalizeOne, List.isEmpty_iff, hne]
  have hstep : normStep none nd (.ok (), []) r0 =
      (.error (.nameError "local variable vmin referenced before assignment"),
        []) := by
    simp [normStep, h0]
  rw [util_normalize_rasters, List.foldl_cons, hstep]
  exact normStep_error none nd _ [] rest

/-- Claim C10 witness: the layer-A raster with `force_vmin = None`. -/
theorem C10_normalize_none_vmin_nameerror_witness :
    util_normalize_rasters [rasterA] none (-99999) =
      (.error (.nameError "local variable vmin referenced before assignment"),
        []) :=
  C10_normalize_none_vmin_nameerror rasterA [] (-99999) (by decide)

-- ==========================================================================
-- Filesystem checks and orchestration entry points (claim C9)
-- ==========================================================================

/-- The filesystem state the orchestration functions consult: which paths
exist as directories and as files, the users-folder `*.tif` glob listing,
and the reference-raster properties `_get_project_vars` reads after its
existence checks (crs, extent, resolution). -/
structure FileSys where
  dirs : List String
  files : List String
  globTifs : String → List String
  rasterCrs : String → String
  rasterExt : String → ℚ × ℚ × ℚ × ℚ
  rasterRes : String → ℚ

/-- Embedding of `project._file_checker` / `conflict._file_checker`: raise
`FileNotFoundError` at the first missing file. -/
def _file_checker (fs : FileSys) : List String → Except PErr Unit
  | [] => .ok ()
  | f :: tl =>
      if fs.files.contains f then _file_checker fs tl
      else .error (.fileNotFoundError (" >>> check for " ++ f))

/-- Embedding of `project._folder_checker` / `conflict._folder_checker`: raise
`FileNotFoundError` at the first missing directory. -/
def _folder_checker (fs : FileSys) : List String → Except PErr Unit
  | [] => .ok ()
  | f :: tl =>
      if fs.dirs.contains f then _folder_checker fs tl
      else .error (.fileNotFoundError (" >>> check for " ++ f))

/-- The project-variable dict both `project._get_project_vars` and
`conflict._get_project_vars` build (identical code). -/
structure ProjectVars where
  folder_project : String
  folder_inputs : String
  folder_outputs : String
  vectors : String
  refraster : String
  crs : String
  ext : ℚ × ℚ × ℚ × ℚ
  res : ℚ

/-- Embedding of `_get_project_vars(folder_project)`: derive the fixed input paths, check
the project folder then the two required input files, and only then read
the reference raster's crs/extent/resolution.  Performs no writes. -/
def _get_project_vars (fs : FileSys) (folder_project : String) :
    Except PErr ProjectVars :=
  let folder_inputs := folder_project ++ "/inputs"
  let folder_outputs := folder_project ++ "/outputs"
  let vectors := folder_inputs ++ "/vectors.gpkg"
  let refraster := folder_inputs ++ "/bathymetry.tif"
  match _folder_checker fs [folder_project] with
  | .error e => .error e
  | .ok _ =>
      match _file_checker fs [vectors, refraster] with
      | .error e => .error e
      | .ok _ =>
          .ok { folder_project, folder_inputs, folder_outputs, vectors,
                refraster, crs := fs.rasterCrs refraster,
                ext := fs.rasterExt refraster, res := fs.rasterRes refraster }

/-- One layer entry of the `groups` configuration dictionary. -/
structure LayerDef where
  name : String
  field : Option String
  weight : Option ℚ
deriving DecidableEq, Repr

/-- One group of the `groups` configuration dictionary: the optional
`vectors` and `rasters` keys. -/
structure GroupDef where
  vectors : Option (List LayerDef)
  rasters : Option (List LayerDef)
deriving DecidableEq, Repr

/-- The master check of `setup_users`: every group must have a `vectors` or
a `rasters` key, otherwise a `KeyError` is raised. -/
def checkGroups : List (String × GroupDef) → Except PErr Unit
  | [] => .ok ()
  | (k, g) :: tl =>
      if g.vectors.isNone && g.rasters.isNone then
        .error (.keyError
          ("On " ++ k ++ " group >> neither vectors or rasters keys were found"))
      else checkGroups tl

/-- The path `p.stem + "_fz.tif"` for the normalization outputs. -/
def stemFz (p : String) : String :=
  if p.endsWith ".tif" then p.dropRight 4 ++ "_fz.tif" else p ++ "_fz.tif"

/-- The files the per-group body of `setup_users` writes, in order:
the reprojected and extent-clipped vector GeoPackages and the rasterized
layer tifs (when the group has vectors), the warped raster tifs (when it has
rasters), the fuzzified copies, the weighted-average raster and its
fuzzified copy (when the group aggregates more than one layer), and the
final fill-nodata output.  The external engine calls are represented by the
files they produce. -/
def setupUsersGroupWrites (folder_interm folder_output : String)
    (g : String × GroupDef) : List String :=
  let vecLayers := (g.2.vectors.getD []).map (fun l => l.name)
  let rasLayers := (g.2.rasters.getD []).map (fun l => l.name)
  let vecWrites :=
    if g.2.vectors.isSome then
      [folder_interm ++ "/users_reprojected.gpkg",
       folder_interm ++ "/users_extracted.gpkg"] ++
      vecLayers.map (fun n => folder_interm ++ "/" ++ n ++ ".tif")
    else []
  let rasWrites := rasLayers.map (fun n => folder_interm ++ "/" ++ n)
  let lsRasters :=
    (if g.2.vectors.isSome then
      vecLayers.map (fun n => folder_interm ++ "/" ++ n ++ ".tif") else []) ++
    rasWrites
  let fzWrites := lsRasters.map stemFz
  let wavgWrites :=
    if 1 < lsRasters.length then
      [folder_interm ++ "/" ++ g.1 ++ "_wavg.tif",
       stemFz (folder_interm ++ "/" ++ g.1 ++ "_wavg.tif")]
    else []
  vecWrites ++ rasWrites ++ fzWrites ++ wavgWrites ++
    [folder_output ++ "/" ++ g.1 ++ ".tif"]

/-- Embedding of `project.setup_users(folder_project, groups, scenario)`: run
`_get_project_vars` (whose checks may raise), then the master checks
(intermediate output folder, input files, group keys), then process each
group.  Returns the python result together with the list of files written;
nothing has been written when any of the checks raises. -/
def setup_users (fs : FileSys) (folder_project : String)
    (groups : List (String × GroupDef)) (scenario : String) :
    Except PErr Unit × List String :=
  match _get_project_vars fs folder_project with
  | .error e => (.error e, [])
  | .ok pvars =>
      let folder_output := pvars.folder_project ++ "/inputs/users/" ++ scenario
      let folder_interm :=
        pvars.folder_project ++ "/outputs/" ++ scenario ++ "/intermediate"
      match _folder_checker fs [folder_interm] with
      | .error e => (.error e, [])
      | .ok _ =>
      match _file_checker fs [pvars.vectors, pvars.refraster] with
      | .error e => (.error e, [])
      | .ok _ =>
      match checkGroups groups with
      | .error e => (.error e, [])
      | .ok _ =>
          (.ok (), groups.flatMap (setupUsersGroupWrites folder_interm folder_output))

/-- All unordered pairs `(items[i], items[j])` with `i < j`, in the order
the double loop of `get_conflict_index` visits them. -/
def allPairs : List String → List (String × String)
  | [] => []
  | x :: tl => tl.map (fun y => (x, y)) ++ allPairs tl

/-- Embedding of `conflict.get_conflict_index(folder_project, scenario)`: run
`_get_project_vars` (whose checks may raise), then create the intermediate
conflict folder, write one `conflict_{a}_{b}.tif` per user pair and its
fuzzified copy, read the conflict matrix CSV (raising `FileNotFoundError`
when it is absent — after the pairwise writes), then write the weighted sum,
its fuzzified copy and the final scenario conflict raster.  Returns the
python result together with the ordered list of paths written (the
intermediate folder creation first). -/
def get_conflict_index (fs : FileSys) (folder_project scenario : String) :
    Except PErr Unit × List String :=
  match _get_project_vars fs folder_project with
  | .error e => (.error e, [])
  | .ok pvars =>
      let folder_output := pvars.folder_outputs ++ "/" ++ scenario
      let folder_sub := folder_output ++ "/intermediate/conflict"
      let folder_users := pvars.folder_inputs ++ "/users/" ++ scenario
      let items := fs.globTifs folder_users
      let pairWrites := (allPairs items).map
        (fun ab => folder_sub ++ "/conflict_" ++ ab.1 ++ "_" ++ ab.2 ++ ".tif")
      let fzWrites := pairWrites.map stemFz
      let csv := folder_users ++ "/conflict.csv"
      if fs.files.contains csv then
        (.ok (), folder_sub :: pairWrites ++ fzWrites ++
          [folder_sub ++ "/conflict_wsum.tif",
           stemFz (folder_sub ++ "/conflict_wsum.tif"),
           folder_output ++ "/" ++ scenario ++ "_conflict.tif"])
      else
        (.error (.fileNotFoundError csv), folder_sub :: pairWrites ++ fzWrites)

/-- When the project folder or a required input file is missing,
`_get_project_vars` raises `FileNotFoundError` from its checkers. -/
theorem _get_project_vars_missing (fs : FileSys) (folder : String)
    (h : fs.dirs.contains folder = false ∨
         fs.files.contains (folder ++ "/inputs/vectors.gpkg") = false ∨
         fs.files.contains (folder ++ "/inputs/bathymetry.tif") = false) :
    ∃ m, _get_project_vars fs folder = .error (.fileNotFoundError m) := by
  have ev : folder ++ "/inputs" ++ "/vectors.gpkg"
      = folder ++ "/inputs/vectors.gpkg" := by
    simp [String.append_assoc]
  have eb : folder ++ "/inputs" ++ "/bathymetry.tif"
      = folder ++ "/inputs/bathymetry.tif" := by
    simp [String.append_assoc]
  by_cases hd : fs.dirs.contains folder
  · by_cases hv : fs.files.contains (folder ++ "/inputs/vectors.gpkg")
    · by_cases hb : fs.files.contains (folder ++ "/inputs/bathymetry.tif")
      · exfalso
        rcases h with h1 | h2 | h3 <;> simp_all
      · have hb2 : ¬ folder ++ "/inputs/bathymetry.tif" ∈ fs.files := by
          simpa using hb
        have hv2 : folder ++ "/inputs/vectors.gpkg" ∈ fs.files := by
          simpa using hv
        have hd2 : folder ∈ fs.dirs := by simpa using hd
        refine ⟨" >>> check for " ++ (folder ++ "/inputs/bathymetry.tif"), ?_⟩
        simp [_get_project_vars, _folder_checker, _file_checker, hd2, hv2,
          hb2, ev, eb]
    · have hv2 : ¬ folder ++ "/inputs/vectors.gpkg" ∈ fs.files := by
        simpa using hv
      have hd2 : folder ∈ fs.dirs := by simpa using hd
      refine ⟨" >>> check for " ++ (folder ++ "/inputs/vectors.gpkg"), ?_⟩
      simp [_get_project_vars, _folder_checker, _file_checker, hd2, hv2,
        ev, eb]
  · have hd2 : ¬ folder ∈ fs.dirs := by simpa using hd
    refine ⟨" >>> check for " ++ folder, ?_⟩
    simp [_get_project_vars, _folder_checker, hd2]

/-- Claim C9: when the project folder, `inputs/vectors.gpkg` or
`inputs/bathymetry.tif` is missing, both orchestration entry points
(`setup_users` and `get_conflict_index`) raise `FileNotFoundError` from the
eager checks inside `_get_project_vars`, before any processing, and their
write trace is empty: no output or intermediate file has been written. -/
theorem C9_entry_points_fail_fast (fs : FileSys) (folder scenario : String)
    (groups : List (String × GroupDef))
    (h : fs.dirs.contains folder = false ∨
         fs.files.contains (folder ++ "/inputs/vectors.gpkg") = false ∨
         fs.files.contains (folder ++ "/inputs/bathymetry.tif") = false) :
    (∃ m, setup_users fs folder groups scenario =
      (.error (.fileNotFoundError m), [])) ∧
    (∃ m, get_conflict_index fs folder scenario =
      (.error (.fileNotFoundError m), [])) := by
  obtain ⟨m, hm⟩ := _get_project_vars_missing fs folder h
  exact ⟨⟨m, by simp [setup_users, hm]⟩,
         ⟨m, by simp [get_conflict_index, hm]⟩⟩

/-- A filesystem with no directories and no files. -/
def fsEmpty : FileSys :=
  { dirs := [], files := [], globTifs := fun _ => [],
    rasterCrs := fun _ => "5880", rasterExt := fun _ => (0, 0, 0, 0),
    rasterRes := fun _ => 1 }

/-- Claim C9 witness: on an empty filesystem both entry points fail with
`FileNotFoundError` and write nothing. -/
theorem C9_entry_points_fail_fast_witness :
    (∃ m, setup_users fsEmpty "narnia" [] "baseline" =
      (.error (.fileNotFoundError m), [])) ∧
    (∃ m, get_conflict_index fsEmpty "narnia" "baseline" =
      (.error (.fileNotFoundError m), [])) :=
  C9_entry_points_fail_fast fsEmpty "narnia" "baseline" [] (Or.inl rfl)
